import Mathlib

/-!
Shallow embedding of the ephemeral-environments lifecycle code
(src/deployer/handler.py, src/deployer/ec2_manager.py,
src/deployer/ssm_commands.py, src/cleanup/handler.py,
src/reconciler/handler.py).

The DynamoDB environments table is modelled as an association list from the
partition key `pk` to an `Item` whose fields are all optional, mirroring the
schemaless item: `put_item` replaces the whole item, `update_item` patches
(or upserts) the named attributes only.  The EC2 fleet is an association
list from instance id to instance metadata (power state plus the
Repository/PRNumber tags that `launch_instance` writes).  Cloudflare
tunnels are a list of tunnel ids.  External collaborators (GitHub, the
boto3 waiters, SSM command execution) are oracles supplied by a world
record; logging and timing calls have no semantic effect and are omitted.
-/

/-- EC2 instance power states as reported by describe_instances. -/
inductive InstState where
  | pending
  | running
  | stopped
  | shuttingDown
  | terminated
  deriving DecidableEq, Repr

/-- Metadata of one EC2 instance: power state plus the tags written by
EC2Manager.launch_instance that the reconciler later reads back. -/
structure InstMeta where
  state : InstState
  repository : Option String := none
  pr_number : Option Nat := none
  deriving DecidableEq, Repr

/-- One DynamoDB environments-table item.  Every attribute is optional
because update_item can upsert an item holding only a subset of them. -/
structure Item where
  repository : Option String := none
  pr_number : Option Nat := none
  branch : Option String := none
  sha : Option String := none
  status : Option String := none
  ec2_instance_id : Option String := none
  tunnel_id : Option String := none
  tunnel_url : Option String := none
  created_at : Option Nat := none
  updated_at : Option Nat := none
  last_activity : Option Nat := none
  error_message : Option String := none
  deriving DecidableEq, Repr

/-- One builds-table row, as written by handle_deploy. -/
structure BuildRow where
  environment_id : String
  build_id : String
  sha : String
  status : String
  created_at : Nat
  deriving DecidableEq, Repr

abbrev Registry := List (String × Item)

abbrev Fleet := List (String × InstMeta)

/-- The shared mutable state handle_deploy / handle_destroy / the cleanup
sweeper / the reconciler act on: the two DynamoDB tables, the EC2 fleet and
the set of Cloudflare tunnels. -/
structure SysState where
  envs : Registry
  builds : List BuildRow
  fleet : Fleet
  tunnels : List String
  deriving DecidableEq, Repr

/-- environments_table.get_item(Key defined by pk): first binding wins. -/
def getItem (reg : Registry) (k : String) : Option Item :=
  match reg with
  | [] => none
  | (k', it) :: rest => if k' = k then some it else getItem rest k

/-- environments_table.put_item: whole-item replace keyed by pk (DynamoDB
overwrites the item with the same key; a missing key is inserted). -/
def putItem (reg : Registry) (k : String) (it : Item) : Registry :=
  match reg with
  | [] => [(k, it)]
  | (k', it') :: rest =>
      if k' = k then (k, it) :: rest else (k', it') :: putItem rest k it

/-- environments_table.update_item: patch the attributes named in the
UpdateExpression, creating the item from nothing when the key is absent
(DynamoDB UpdateItem upserts). -/
def updItem (reg : Registry) (k : String) (patch : Item → Item) : Registry :=
  putItem reg k (patch ((getItem reg k).getD {}))

/-- Lookup of one instance in the fleet. -/
def fleetGet (f : Fleet) (i : String) : Option InstMeta :=
  match f with
  | [] => none
  | (i', m) :: rest => if i' = i then some m else fleetGet rest i

/-- State change of a terminated instance. -/
def termMeta (m : InstMeta) : InstMeta := { m with state := InstState.terminated }

/-- State change of a stopped instance. -/
def stopMeta (m : InstMeta) : InstMeta := { m with state := InstState.stopped }

/-- ec2.terminate_instances(InstanceIds defined by i): an existing instance
moves to terminated; a missing instance raises, but every call site wraps
the call in try/except and swallows the error, so the fleet is unchanged. -/
def termInst (f : Fleet) (i : String) : Fleet :=
  f.map (fun p => if p.1 = i then (p.1, termMeta p.2) else p)

/-- ec2.stop_instances, with the same swallow-on-error call sites. -/
def stopInst (f : Fleet) (i : String) : Fleet :=
  f.map (fun p => if p.1 = i then (p.1, stopMeta p.2) else p)

/-- Deletion of a Cloudflare tunnel.  Both delete_cloudflare_tunnel in the
cleanup handler and CloudflareManager.delete_tunnel issue the API deletes
without failing the caller (every request is wrapped or unchecked), so the
model removes the id and never raises. -/
def deleteTunnel (ts : List String) (tid : String) : List String :=
  ts.filter (fun t => t ≠ tid)

/-- The attribute patch written by the cleanup handler when stopping:
SET status = stopped, updated_at = now. -/
def stopPatch (t : Nat) (it : Item) : Item :=
  { it with status := some "stopped", updated_at := some t }

/-- The attribute patch SET status = chosen status, updated_at = now, shared
by terminate_environment, handle_destroy and the reconciler. -/
def statusPatch (st : String) (t : Nat) (it : Item) : Item :=
  { it with status := some st, updated_at := some t }

/-- cleanup/handler.py stop_environment(env): stop the EC2 instance when the
record carries one (errors swallowed), keep the tunnel, then update the
record to status=stopped.  The env argument is the item the caller read;
only its pk and ec2_instance_id are consulted. -/
def stop_environment (s : SysState) (pk : String) (env : Item) (t : Nat) : SysState :=
  let f :=
    match env.ec2_instance_id with
    | some i => stopInst s.fleet i
    | none => s.fleet
  { s with fleet := f, envs := updItem s.envs pk (stopPatch t) }

/-- cleanup/handler.py terminate_environment(env): terminate the EC2
instance when present, delete the Cloudflare tunnel when present (both
best-effort), then update the record to status=terminated. -/
def terminate_environment (s : SysState) (pk : String) (env : Item) (t : Nat) : SysState :=
  let f :=
    match env.ec2_instance_id with
    | some i => termInst s.fleet i
    | none => s.fleet
  let ts :=
    match env.tunnel_id with
    | some tid => deleteTunnel s.tunnels tid
    | none => s.tunnels
  { s with fleet := f, tunnels := ts, envs := updItem s.envs pk (statusPatch "terminated" t) }

/-- A destroy intent: repository full name and pull-request number. -/
structure DestroyMsg where
  repo : String
  pr_number : Nat
  deriving DecidableEq, Repr

/-- The partition key built by the handlers: repo#pr_number. -/
def pkOf (repo : String) (pr_number : Nat) : String :=
  repo ++ "#" ++ toString pr_number

/-- deployer/handler.py handle_destroy: no-op when no record exists for the
key; otherwise terminate the EC2 instance when the record carries one
(errors swallowed inside EC2Manager.terminate_instance) and update the
record to status=destroyed.  Returns the new state and the unit of work
outcome (ok when no unhandled exception escapes). -/
def handle_destroy (m : DestroyMsg) (t : Nat) (s : SysState) :
    SysState × Except String Unit :=
  let pk := pkOf m.repo m.pr_number
  match getItem s.envs pk with
  | none => (s, Except.ok ())
  | some existing =>
      let f :=
        match existing.ec2_instance_id with
        | some i => termInst s.fleet i
        | none => s.fleet
      ({ s with fleet := f, envs := updItem s.envs pk (statusPatch "destroyed" t) },
       Except.ok ())

/-- Outcome of SSMCommands.run_command as observed by handle_deploy:
send_command may keep raising InvalidInstanceId through all 30 retries
(re-raised), the command may finish in a terminal failure status, the
polling loop may reach its deadline, or the command succeeds with its
StandardOutputContent. -/
inductive SSMOutcome where
  | sendFailed : String → SSMOutcome
  | commandFailed : Option String → SSMOutcome
  | pollTimedOut : String → SSMOutcome
  | success : String → SSMOutcome

/-- ssm_commands.py run_command / _wait_for_command, collapsed to the result
handle_deploy sees.  A terminal failure raises with the prefix
"SSM command failed: " and StandardErrorContent (default "Unknown error"
when the field is absent); the polling deadline raises with the command id
and the 300 second timeout passed by run_start_environment. -/
def run_start_environment (o : SSMOutcome) : Except String String :=
  match o with
  | SSMOutcome.sendFailed e => Except.error e
  | SSMOutcome.commandFailed stderr =>
      Except.error ("SSM command failed: " ++ stderr.getD "Unknown error")
  | SSMOutcome.pollTimedOut cid =>
      Except.error ("Command " ++ cid ++ " timed out after 300s")
  | SSMOutcome.success stdout => Except.ok stdout

/-- Collaborator outcomes for one handle_deploy execution. -/
structure DeployWorld where
  cf_secret_ok : Bool := true
  cf_err : String := ""
  github_ok : Bool := true
  github_err : String := ""
  repo_config_ok : Bool := true
  repo_config_err : String := ""
  launch_ok : Bool := true
  launch_err : String := ""
  new_instance_id : String := ""
  running_ready_at : Nat := 0
  status_ok_ready_at : Nat := 0
  ssm_agent_ready : Nat → Bool := fun _ => true
  ssm : SSMOutcome := SSMOutcome.success ""
  success_status_ok : Bool := true
  success_status_err : String := ""
  comment_ok : Bool := true
  comment_err : String := ""

/-- The SSM-agent polling loop at the end of EC2Manager.wait_for_instance:
describe_instance_information every 10 seconds while less than 120 seconds
have elapsed, so 12 polls; true when the agent registered in time. -/
def ssmAgentPoll (ready : Nat → Bool) : Nat → Nat → Bool
  | _, 0 => false
  | i, Nat.succ fuel => if ready i then true else ssmAgentPoll ready (i + 1) fuel

/-- ec2_manager.py EC2Manager.wait_for_instance(instance_id, timeout):
two boto3 waiters (instance_running: Delay 5, MaxAttempts timeout/5;
instance_status_ok: Delay 10, MaxAttempts timeout/10) whose exhaustion
raises WaiterError, then the bounded SSM-agent poll whose exhaustion only
logs "may not be fully SSM ready" and returns normally. -/
def wait_for_instance (w : DeployWorld) (timeout : Nat) : Except String Unit :=
  if timeout / 5 ≤ w.running_ready_at then
    Except.error "Waiter InstanceRunning failed: Max attempts exceeded"
  else if timeout / 10 ≤ w.status_ok_ready_at then
    Except.error "Waiter InstanceStatusOk failed: Max attempts exceeded"
  else if ssmAgentPoll w.ssm_agent_ready 0 12 then Except.ok ()
  else Except.ok ()

/-- Characters matched by [a-zA-Z0-9-] in the tunnel-URL pattern. -/
def isUrlChar (c : Char) : Bool := c.isAlphanum || c = '-'

/-- One anchored attempt of the regex
TUNNEL_URL=(https://[a-zA-Z0-9-]+\.trycloudflare\.com): the literal prefix,
a nonempty run of url characters, then the literal suffix.  Returns the
host label (the captured group without scheme and suffix). -/
def matchTunnelAt (cs : List Char) : Option String :=
  let pre := "TUNNEL_URL=https://".toList
  if cs.take pre.length = pre then
    let rest := cs.drop pre.length
    let mid := rest.takeWhile isUrlChar
    let suf := ".trycloudflare.com".toList
    if mid ≠ [] ∧ ((rest.drop mid.length).take suf.length = suf) then
      some (String.mk mid)
    else none
  else none

/-- re.search: the leftmost position where the pattern matches, yielding the
captured host label.  The tunnel URL is https:// LABEL .trycloudflare.com;
the source recovers tunnel_id from the URL with
url.replace("https://", "").replace(".trycloudflare.com", ""), which equals
the label because the label matches [a-zA-Z0-9-]+ and so contains neither
of the two replaced substrings. -/
def findTunnelLabel : List Char → Option String
  | [] => none
  | c :: rest =>
      match matchTunnelAt (c :: rest) with
      | some mid => some mid
      | none => findTunnelLabel rest

/-- The full tunnel URL rebuilt around the captured label. -/
def tunnelUrlOf (label : String) : String :=
  "https://" ++ label ++ ".trycloudflare.com"

/-- A deploy intent as carried by the SQS message. -/
structure DeployMsg where
  repo : String
  pr_number : Nat
  branch : String
  sha : String
  clone_url : String
  pr_url : String
  deriving DecidableEq, Repr

/-- Parameter names accepted by EC2Manager.launch_instance
(ec2_manager.py line 19: def launch_instance(self, name, tags=None)). -/
def launch_instance_params : List String := ["name", "tags"]

/-- Keyword arguments passed at the launch call site
(handler.py lines 209-217). -/
def launch_call_kwargs : List String := ["name", "tags", "instance_profile_arn"]

/-- Python call semantics: the call binds only when every keyword argument
names a parameter of the callee; otherwise it raises TypeError. -/
def launch_call_ok : Bool :=
  launch_call_kwargs.all (fun k => launch_instance_params.contains k)

/-- Effect of a successful run_instances inside EC2Manager.launch_instance:
a fresh instance tagged with Repository and PRNumber (the Branch tag is
written too but never read back by code modelled here). -/
def launchInst (f : Fleet) (i : String) (m : DeployMsg) : Fleet :=
  f ++ [(i, { state := InstState.running, repository := some m.repo,
              pr_number := some m.pr_number })]

/-- handler.py lines 199-205: when an existing record carries an instance
id, terminate that instance first and, when a tunnel id is recorded, delete
the tunnel, before any new launch. -/
def teardown_existing (existing : Option Item) (s : SysState) : SysState :=
  match existing with
  | some ex =>
      match ex.ec2_instance_id with
      | some i =>
          let s1 := { s with fleet := termInst s.fleet i }
          match ex.tunnel_id with
          | some tid => { s1 with tunnels := deleteTunnel s1.tunnels tid }
          | none => s1
      | none => s
  | none => s

/-- handler.py lines 220-311, after a launch produced instance id iid:
readiness wait, start script over SSM, tunnel-URL extraction, the put_item
of the running record plus the builds-table row, then the success commit
status and the PR timing comment.  Failures leave the state reached so far
and carry the raised message. -/
def deploy_after_launch (m : DeployMsg) (w : DeployWorld) (t : Nat) (iid : String)
    (s : SysState) : SysState × Except String Unit :=
  match wait_for_instance w 300 with
  | Except.error e => (s, Except.error e)
  | Except.ok _ =>
    match run_start_environment w.ssm with
    | Except.error e => (s, Except.error e)
    | Except.ok stdout =>
      match findTunnelLabel stdout.toList with
      | none => (s, Except.error "Quick Tunnel URL not found in SSM output")
      | some label =>
          let url := tunnelUrlOf label
          let tid := label
          let pk := pkOf m.repo m.pr_number
          let item : Item :=
            { repository := some m.repo, pr_number := some m.pr_number,
              branch := some m.branch, sha := some m.sha,
              status := some "running", ec2_instance_id := some iid,
              tunnel_id := some tid, tunnel_url := some url,
              created_at := some t, updated_at := some t, last_activity := some t }
          let row : BuildRow :=
            { environment_id := pk,
              build_id := "build-" ++ String.mk (m.sha.toList.take 8) ++ "-" ++ toString t,
              sha := m.sha, status := "success", created_at := t }
          let s1 := { s with envs := putItem s.envs pk item,
                             builds := s.builds ++ [row],
                             tunnels := s.tunnels ++ [tid] }
          if w.success_status_ok then
            if w.comment_ok then (s1, Except.ok ())
            else (s1, Except.error w.comment_err)
          else (s1, Except.error w.success_status_err)

/-- The message of the TypeError raised by the launch call site: the callee
EC2Manager.launch_instance has no parameter named instance_profile_arn. -/
def tyErr : String :=
  "TypeError: launch_instance() got an unexpected keyword argument instance_profile_arn"

/-- The except block of handle_deploy (handler.py lines 326-336): after the
best-effort failure commit status (its own failure is swallowed), an
update_item upserting status=failed, error_message=str(e), updated_at=now. -/
def failWrite (pk : String) (e : String) (t : Nat) (s : SysState) : SysState :=
  { s with envs := updItem s.envs pk (fun it =>
      { it with status := some "failed", error_message := some e, updated_at := some t }) }

/-- The try block of handle_deploy (handler.py lines 182-311): the GitHub
token / pending commit status step, the per-repo config fetch, the teardown
of the pre-existing environment, the launch call, and the post-launch
phases.  The launch call passes the keyword argument instance_profile_arn,
which launch_instance does not accept, so when launch_call_ok is false the
call raises TypeError before run_instances is reached. -/
def deploy_try (m : DeployMsg) (w : DeployWorld) (t : Nat) (existing : Option Item)
    (s : SysState) : SysState × Except String Unit :=
  if w.github_ok = false then (s, Except.error w.github_err)
  else if w.repo_config_ok = false then (s, Except.error w.repo_config_err)
  else
    let s1 := teardown_existing existing s
    if launch_call_ok then
      if w.launch_ok then
        deploy_after_launch m w t w.new_instance_id
          { s1 with fleet := launchInst s1.fleet w.new_instance_id m }
      else (s1, Except.error w.launch_err)
    else
      (s1, Except.error tyErr)

/-- deployer/handler.py handle_deploy: read the existing record, fetch the
Cloudflare secret (outside the try block, so its failure escapes without
any registry write), run the try block, and on failure apply the except
block and re-raise. -/
def handle_deploy (m : DeployMsg) (w : DeployWorld) (t : Nat) (s : SysState) :
    SysState × Except String Unit :=
  let pk := pkOf m.repo m.pr_number
  let existing := getItem s.envs pk
  if w.cf_secret_ok = false then (s, Except.error w.cf_err)
  else
    match deploy_try m w t existing s with
    | (s', Except.ok _) => (s', Except.ok ())
    | (s', Except.error e) => (failWrite pk e t s', Except.error e)

/-- The same try block with the launch call repaired to pass only the
keywords launch_instance accepts, which is the evident intent of handler.py
lines 207-217 (the comment there reads: Launch new EC2 instance, with
per-repo IAM profile if configured).  Identical to deploy_try in every
other respect; used to exhibit the behavior of the code downstream of the
TypeError. -/
def deploy_try_launch_repaired (m : DeployMsg) (w : DeployWorld) (t : Nat)
    (existing : Option Item) (s : SysState) : SysState × Except String Unit :=
  if w.github_ok = false then (s, Except.error w.github_err)
  else if w.repo_config_ok = false then (s, Except.error w.repo_config_err)
  else
    let s1 := teardown_existing existing s
    if w.launch_ok then
      deploy_after_launch m w t w.new_instance_id
        { s1 with fleet := launchInst s1.fleet w.new_instance_id m }
    else (s1, Except.error w.launch_err)

/-- handle_deploy built on the repaired try block. -/
def handle_deploy_launch_repaired (m : DeployMsg) (w : DeployWorld) (t : Nat)
    (s : SysState) : SysState × Except String Unit :=
  let pk := pkOf m.repo m.pr_number
  let existing := getItem s.envs pk
  if w.cf_secret_ok = false then (s, Except.error w.cf_err)
  else
    match deploy_try_launch_repaired m w t existing s with
    | (s', Except.ok _) => (s', Except.ok ())
    | (s', Except.error e) => (failWrite pk e t s', Except.error e)

/-- reconciler/handler.py _instance_exists: describe the instance; missing
(InvalidInstanceID.NotFound) is false, otherwise true unless the power
state is terminated or shutting-down. -/
def instance_exists (f : Fleet) (i : String) : Bool :=
  match fleetGet f i with
  | none => false
  | some m =>
      decide (m.state ≠ InstState.terminated ∧ m.state ≠ InstState.shuttingDown)

/-- reconciler/handler.py _get_ephemeral_ec2_instances: instances carrying
both a Repository and a PRNumber tag whose power state is running, stopped
or pending. -/
def ephemeral_instances (f : Fleet) : Fleet :=
  f.filter (fun p =>
    p.2.repository.isSome && p.2.pr_number.isSome &&
      (p.2.state = InstState.running || p.2.state = InstState.stopped ||
        p.2.state = InstState.pending))

/-- Registry write shared by both reconciler passes
(_update_environment_status with status terminated). -/
def updTerm (reg : Registry) (pk : String) (t : Nat) : Registry :=
  updItem reg pk (statusPatch "terminated" t)

/-- The loop body of _reconcile_orphaned_ec2 over the ephemeral instances:
instances with a missing or falsy Repository or PRNumber tag are logged and
skipped; a GitHub error (oracle none) is recorded and isolated; an open
pull request (oracle true) leaves the instance alone; a closed one leads to
_terminate_orphaned_instance, which terminates the instance and updates the
matching record to terminated. -/
def orphanLoop (oracle : String → Nat → Option Bool) (t : Nat) :
    Fleet → Fleet → Registry → Fleet × Registry
  | [], f, e => (f, e)
  | (iid, meta) :: rest, f, e =>
      match meta.repository, meta.pr_number with
      | some repo, some pr =>
          if repo = "" ∨ pr = 0 then orphanLoop oracle t rest f e
          else
            match oracle repo pr with
            | none => orphanLoop oracle t rest f e
            | some true => orphanLoop oracle t rest f e
            | some false =>
                orphanLoop oracle t rest (termInst f iid) (updTerm e (pkOf repo pr) t)
      | _, _ => orphanLoop oracle t rest f e

/-- Phase 1 of PRReconcilerService.reconcile. -/
def orphanPass (envs : Registry) (fleet : Fleet) (oracle : String → Nat → Option Bool)
    (t : Nat) : Fleet × Registry :=
  orphanLoop oracle t (ephemeral_instances fleet) fleet envs

/-- environments_table.query on the status index. -/
def queryByStatus (reg : Registry) (st : String) : Registry :=
  reg.filter (fun p => p.2.status = some st)

/-- The loop body of _reconcile_stale_dynamo over the records marked
running: records without an instance id are skipped; when the instance no
longer exists the record is forced to terminated by a registry write alone
(no EC2 call is issued: the loop does not touch the fleet at all). -/
def staleLoop (fleet : Fleet) (t : Nat) : Registry → Registry → Registry
  | [], e => e
  | (pk, it) :: rest, e =>
      match it.ec2_instance_id with
      | none => staleLoop fleet t rest e
      | some iid =>
          if instance_exists fleet iid then staleLoop fleet t rest e
          else staleLoop fleet t rest (updTerm e pk t)

/-- Phase 2 of PRReconcilerService.reconcile. -/
def stalePass (envs : Registry) (fleet : Fleet) (t : Nat) : Registry :=
  staleLoop fleet t (queryByStatus envs "running") envs

/-- PRReconcilerService.reconcile: the orphaned-EC2 pass then the
stale-record pass (run summary counters omitted). -/
def reconcile (envs : Registry) (fleet : Fleet) (oracle : String → Nat → Option Bool)
    (t : Nat) : Fleet × Registry :=
  let fe := orphanPass envs fleet oracle t
  (fe.1, stalePass fe.2 fe.1 t)

/-- Instances that are present and not on their way out: the hosts an
observer would count as live. -/
def liveInstances (f : Fleet) : Fleet :=
  f.filter (fun p =>
    p.2.state ≠ InstState.terminated ∧ p.2.state ≠ InstState.shuttingDown)

/-- The empty initial state: clean registry, no builds, no instances, no
tunnels. -/
def s0 : SysState := { envs := [], builds := [], fleet := [], tunnels := [] }

/-- The deploy intent of the specification scenario:
Deploy(key org/app#42, branch feat-x, sha abc12345). -/
def msg0 : DeployMsg :=
  { repo := "org/app", pr_number := 42, branch := "feat-x", sha := "abc12345",
    clone_url := "https://github.com/org/app.git",
    pr_url := "https://github.com/org/app/pull/42" }

/-- A world in which every collaborator call succeeds: GitHub, secrets, the
launch, both waiters, the SSM agent, the start script (whose output carries
a tunnel URL) and both notifications. -/
def w0 : DeployWorld :=
  { new_instance_id := "i-new",
    ssm := SSMOutcome.success "TUNNEL_URL=https://abc-def.trycloudflare.com" }

/-- An existing running record for org/app#42, as a successful deploy would
have written it. -/
def itemRun : Item :=
  { repository := some "org/app", pr_number := some 42, branch := some "main",
    sha := some "00aa11bb", status := some "running",
    ec2_instance_id := some "i-old", tunnel_id := some "oldtid",
    tunnel_url := some "https://oldtid.trycloudflare.com",
    created_at := some 1, updated_at := some 1, last_activity := some 1 }

/-- A state in which org/app#42 is running on instance i-old with tunnel
oldtid. -/
def sRun : SysState :=
  { envs := [(pkOf "org/app" 42, itemRun)], builds := [],
    fleet := [("i-old",
      { state := InstState.running, repository := some "org/app",
        pr_number := some 42 })],
    tunnels := ["oldtid"] }

/-- A second, later deploy intent for the same key. -/
def msgB : DeployMsg :=
  { repo := "org/app", pr_number := 42, branch := "feat-y", sha := "bbbb2222",
    clone_url := "https://github.com/org/app.git",
    pr_url := "https://github.com/org/app/pull/42" }

/-- The all-success world of the second deploy. -/
def wB : DeployWorld :=
  { new_instance_id := "i-2",
    ssm := SSMOutcome.success "TUNNEL_URL=https://second.trycloudflare.com" }

/-- State after the first deploy over the running environment. -/
def c2_s1 : SysState := (handle_deploy msg0 w0 100 sRun).1

/-- State after the second deploy for the same key. -/
def c2_s2 : SysState := (handle_deploy msgB wB 200 c2_s1).1

/-- A world in which the host reaches running and passes its status checks
but the SSM agent never registers. -/
def wSsmNever : DeployWorld := { ssm_agent_ready := fun _ => false }

/-- A world in which everything succeeds up to and including the put_item of
the running record and the success commit status, but posting the PR
comment raises. -/
def wCommentFail : DeployWorld :=
  { new_instance_id := "i-new",
    ssm := SSMOutcome.success "TUNNEL_URL=https://abc-def.trycloudflare.com",
    comment_ok := false,
    comment_err := "GitHub API error while posting PR comment" }

/-- The running record the repaired deploy persists just before notifying. -/
def itemC5run : Item :=
  { repository := some "org/app", pr_number := some 42, branch := some "feat-x",
    sha := some "abc12345", status := some "running",
    ec2_instance_id := some "i-new", tunnel_id := some "abc-def",
    tunnel_url := some "https://abc-def.trycloudflare.com",
    created_at := some 100, updated_at := some 100, last_activity := some 100 }

/-- The same record after the except block rewrote it. -/
def itemC5fail : Item :=
  { itemC5run with
    status := some "failed"
    error_message := some "GitHub API error while posting PR comment"
    updated_at := some 100 }

/-- Result of the repaired try block under wCommentFail. -/
def c5_try : SysState × Except String Unit :=
  deploy_try_launch_repaired msg0 wCommentFail 100 none s0

/-- Result of the full repaired handler under wCommentFail. -/
def c5_full : SysState × Except String Unit :=
  handle_deploy_launch_repaired msg0 wCommentFail 100 s0

/-- The destroy intent for org/app#42. -/
def dmsg0 : DestroyMsg := { repo := "org/app", pr_number := 42 }

/-- A registry holding one record marked running whose instance is gone. -/
def reg9 : Registry :=
  [(pkOf "org/app" 7, { status := some "running", ec2_instance_id := some "i-gone" })]

/-! ## Lemmas about the table and fleet primitives -/

theorem getItem_putItem_self (l : Registry) (k : String) (it : Item) :
    getItem (putItem l k it) k = some it := by
  induction l with
  | nil => simp [putItem, getItem]
  | cons hd tl ih =>
      obtain ⟨k0, it0⟩ := hd
      by_cases h : k0 = k
      · simp [putItem, getItem, h]
      · simp [putItem, getItem, h, ih]

theorem getItem_putItem_ne (l : Registry) (k k0 : String) (it : Item)
    (h : k0 ≠ k) : getItem (putItem l k it) k0 = getItem l k0 := by
  induction l with
  | nil => simp [putItem, getItem, Ne.symm h]
  | cons hd tl ih =>
      obtain ⟨k1, it1⟩ := hd
      by_cases h1 : k1 = k
      · subst h1
        simp [putItem, getItem, Ne.symm h]
      · by_cases h2 : k1 = k0
        · subst h2
          simp [putItem, getItem, h1, ih]
        · simp [putItem, getItem, h1, h2, ih]

theorem putItem_putItem_self (l : Registry) (k : String) (a b : Item) :
    putItem (putItem l k a) k b = putItem l k b := by
  induction l with
  | nil => simp [putItem]
  | cons hd tl ih =>
      obtain ⟨k0, it0⟩ := hd
      by_cases h : k0 = k
      · simp [putItem, h]
      · simp [putItem, h, ih]

theorem getItem_updItem_self (l : Registry) (k : String) (p : Item → Item) :
    getItem (updItem l k p) k = some (p ((getItem l k).getD {})) := by
  rw [updItem, getItem_putItem_self]

theorem getItem_updItem_ne (l : Registry) (k k0 : String) (p : Item → Item)
    (h : k0 ≠ k) : getItem (updItem l k p) k0 = getItem l k0 := by
  rw [updItem, getItem_putItem_ne _ _ _ _ h]

theorem updItem_updItem_self (l : Registry) (k : String) (p q : Item → Item) :
    updItem (updItem l k p) k q = updItem l k (fun it => q (p it)) := by
  simp [updItem, getItem_putItem_self, putItem_putItem_self]

theorem termInst_cons (i0 : String) (m0 : InstMeta) (tl : Fleet) (i : String) :
    termInst ((i0, m0) :: tl) i =
      (if i0 = i then (i0, termMeta m0) else (i0, m0)) :: termInst tl i := rfl

theorem stopInst_cons (i0 : String) (m0 : InstMeta) (tl : Fleet) (i : String) :
    stopInst ((i0, m0) :: tl) i =
      (if i0 = i then (i0, stopMeta m0) else (i0, m0)) :: stopInst tl i := rfl

theorem fleetGet_termInst (f : Fleet) (i j : String) :
    fleetGet (termInst f i) j =
      if j = i then (fleetGet f j).map termMeta else fleetGet f j := by
  induction f with
  | nil => by_cases h : j = i <;> simp [termInst, fleetGet, h]
  | cons hd tl ih =>
      obtain ⟨i0, m0⟩ := hd
      rw [termInst_cons]
      by_cases h1 : i0 = i
      · subst h1
        rw [if_pos rfl]
        by_cases h2 : i0 = j
        · subst h2
          simp [fleetGet]
        · have hji : ¬ i0 = j := h2
          simp [fleetGet, hji, ih]
      · rw [if_neg h1]
        by_cases h2 : i0 = j
        · subst h2
          have hji : ¬ i0 = i := h1
          simp [fleetGet, hji]
        · simp [fleetGet, h2, ih]

theorem termMeta_termMeta (m : InstMeta) : termMeta (termMeta m) = termMeta m := rfl

theorem stopMeta_stopMeta (m : InstMeta) : stopMeta (stopMeta m) = stopMeta m := rfl

theorem termInst_termInst (f : Fleet) (i : String) :
    termInst (termInst f i) i = termInst f i := by
  induction f with
  | nil => rfl
  | cons hd tl ih =>
      obtain ⟨i0, m0⟩ := hd
      by_cases h : i0 = i
      · simp [termInst_cons, h, termMeta_termMeta, ih]
      · simp [termInst_cons, h, ih]

theorem stopInst_stopInst (f : Fleet) (i : String) :
    stopInst (stopInst f i) i = stopInst f i := by
  induction f with
  | nil => rfl
  | cons hd tl ih =>
      obtain ⟨i0, m0⟩ := hd
      by_cases h : i0 = i
      · simp [stopInst_cons, h, stopMeta_stopMeta, ih]
      · simp [stopInst_cons, h, ih]

theorem deleteTunnel_deleteTunnel (ts : List String) (tid : String) :
    deleteTunnel (deleteTunnel ts tid) tid = deleteTunnel ts tid := by
  induction ts with
  | nil => rfl
  | cons hd tl ih =>
      by_cases h : hd = tid
      · simp [deleteTunnel, h, ih]
      · simp [deleteTunnel, h, ih]

theorem instance_exists_termInst_self (f : Fleet) (i : String) :
    instance_exists (termInst f i) i = false := by
  simp only [instance_exists, fleetGet_termInst, if_pos rfl]
  cases h : fleetGet f i <;> simp [h, termMeta]

theorem teardown_existing_builds (ex : Option Item) (s : SysState) :
    (teardown_existing ex s).builds = s.builds := by
  cases ex with
  | none => rfl
  | some e =>
      cases h1 : e.ec2_instance_id with
      | none => simp [teardown_existing, h1]
      | some i => cases h2 : e.tunnel_id <;> simp [teardown_existing, h1, h2]

theorem teardown_existing_envs (ex : Option Item) (s : SysState) :
    (teardown_existing ex s).envs = s.envs := by
  cases ex with
  | none => rfl
  | some e =>
      cases h1 : e.ec2_instance_id with
      | none => simp [teardown_existing, h1]
      | some i => cases h2 : e.tunnel_id <;> simp [teardown_existing, h1, h2]

/-! ## Claim theorems -/

/-- C7: Stop, Terminate and Destroy are idempotent.  stop_environment and
terminate_environment are total functions of the state (every EC2 or
Cloudflare error along the way is swallowed by a try/except in the source),
so a repeated call raises nothing; handle_destroy likewise always returns
ok, also on an already-stopped or missing host, a missing tunnel, or a
missing record.  Calling any of the three a second time (at any later
timestamp) yields exactly the state a single call at that timestamp
yields. -/
theorem stop_terminate_destroy_idempotent :
    (∀ (s : SysState) (pk : String) (env : Item) (t1 t2 : Nat),
       stop_environment (stop_environment s pk env t1) pk env t2 =
         stop_environment s pk env t2) ∧
    (∀ (s : SysState) (pk : String) (env : Item) (t1 t2 : Nat),
       terminate_environment (terminate_environment s pk env t1) pk env t2 =
         terminate_environment s pk env t2) ∧
    (∀ (m : DestroyMsg) (t1 t2 : Nat) (s : SysState),
       handle_destroy m t2 (handle_destroy m t1 s).1 = handle_destroy m t2 s) ∧
    (∀ (m : DestroyMsg) (t : Nat) (s : SysState),
       (handle_destroy m t s).2 = Except.ok ()) := by
  have hstop : ∀ (l : Registry) (pk : String) (t1 t2 : Nat),
      updItem (updItem l pk (stopPatch t1)) pk (stopPatch t2) =
        updItem l pk (stopPatch t2) := by
    intro l pk t1 t2
    rw [updItem_updItem_self]
    congr 1
  have hstatus : ∀ (l : Registry) (pk st : String) (t1 t2 : Nat),
      updItem (updItem l pk (statusPatch st t1)) pk (statusPatch st t2) =
        updItem l pk (statusPatch st t2) := by
    intro l pk st t1 t2
    rw [updItem_updItem_self]
    congr 1
  refine ⟨?_, ?_, ?_, ?_⟩
  · intro s pk env t1 t2
    cases h : env.ec2_instance_id with
    | none => simp [stop_environment, h, hstop]
    | some i =>
        simp [stop_environment, h, stopInst_stopInst, hstop]
  · intro s pk env t1 t2
    cases h1 : env.ec2_instance_id with
    | none =>
        cases h2 : env.tunnel_id with
        | none =>
            simp [terminate_environment, h1, h2, hstatus]
        | some tid =>
            simp [terminate_environment, h1, h2, deleteTunnel_deleteTunnel, hstatus]
    | some i =>
        cases h2 : env.tunnel_id with
        | none =>
            simp [terminate_environment, h1, h2, termInst_termInst, hstatus]
        | some tid =>
            simp [terminate_environment, h1, h2, termInst_termInst,
              deleteTunnel_deleteTunnel, hstatus]
  · intro m t1 t2 s
    cases hex : getItem s.envs (pkOf m.repo m.pr_number) with
    | none => simp [handle_destroy, hex]
    | some ex =>
        have hget : getItem
            (updItem s.envs (pkOf m.repo m.pr_number) (statusPatch "destroyed" t1))
            (pkOf m.repo m.pr_number) = some (statusPatch "destroyed" t1 ex) := by
          rw [getItem_updItem_self, hex]
          rfl
        cases hid : ex.ec2_instance_id with
        | none =>
            simp [handle_destroy, hex, hget, statusPatch, hid, hstatus]
        | some i =>
            simp [handle_destroy, hex, hget, statusPatch, hid,
              termInst_termInst, hstatus]
  · intro m t s
    cases hex : getItem s.envs (pkOf m.repo m.pr_number) <;>
      simp [handle_destroy, hex]

/-- C8: handle_destroy on a key with no record returns ok and changes
nothing (in particular it creates no record); on a key with a record it
returns ok, sets the record status to destroyed, and terminates the
referenced host when the record carries one (a host absent from the fleet
stays absent: the error is swallowed). -/
theorem handle_destroy_noop_or_destroyed :
    ∀ (m : DestroyMsg) (t : Nat) (s : SysState),
      (handle_destroy m t s).2 = Except.ok () ∧
      (getItem s.envs (pkOf m.repo m.pr_number) = none →
        (handle_destroy m t s).1 = s) ∧
      (∀ it, getItem s.envs (pkOf m.repo m.pr_number) = some it →
        (∃ it2, getItem (handle_destroy m t s).1.envs (pkOf m.repo m.pr_number) = some it2 ∧
           it2.status = some "destroyed") ∧
        (∀ i, it.ec2_instance_id = some i →
           fleetGet (handle_destroy m t s).1.fleet i = (fleetGet s.fleet i).map termMeta)) := by
  intro m t s
  cases hex : getItem s.envs (pkOf m.repo m.pr_number) with
  | none =>
      refine ⟨by simp [handle_destroy, hex], fun _ => by simp [handle_destroy, hex], ?_⟩
      intro it hit
      exact absurd hit (by simp)
  | some ex =>
      refine ⟨by simp [handle_destroy, hex], fun hn => absurd hn (by simp), ?_⟩
      intro it hit
      injection hit with hit
      subst hit
      constructor
      · refine ⟨statusPatch "destroyed" t ((getItem s.envs (pkOf m.repo m.pr_number)).getD {}), ?_, ?_⟩
        · cases hid : ex.ec2_instance_id <;>
            simp [handle_destroy, hex, hid, getItem_updItem_self]
        · simp [statusPatch]
      · intro i hi
        simp [handle_destroy, hex, hi, fleetGet_termInst]

/-- C8 witness: Destroy on the empty registry is a pure no-op returning ok,
and Destroy on a state with a running record leaves a destroyed record. -/
theorem handle_destroy_noop_or_destroyed_witness :
    (handle_destroy dmsg0 5 s0).1 = s0 ∧
    (∃ it2, getItem (handle_destroy dmsg0 5 sRun).1.envs (pkOf "org/app" 42) = some it2 ∧
       it2.status = some "destroyed") := by
  constructor
  · exact (handle_destroy_noop_or_destroyed dmsg0 5 s0).2.1 rfl
  · exact ((handle_destroy_noop_or_destroyed dmsg0 5 sRun).2.2 itemRun (by decide)).1

/-- C6 counterexample: after handle_destroy the record keeps its
ec2_instance_id attribute while status is destroyed, so hostRef is non-null
in a status outside running and stopped. -/
theorem handle_destroy_keeps_instance_id :
    getItem (handle_destroy dmsg0 200 sRun).1.envs (pkOf "org/app" 42) =
      some { itemRun with status := some "destroyed", updated_at := some 200 } ∧
    ({ itemRun with status := some "destroyed", updated_at := some 200 } : Item).ec2_instance_id =
      some "i-old" := by
  exact ⟨by decide, rfl⟩

/-- C6 amended: the terminal transitions never clear ec2_instance_id: both
handle_destroy and terminate_environment write their terminal status while
preserving the stored instance id.  What they do guarantee is that the
referenced instance is not live afterwards: the same operation terminates
it when the record (or the passed env) carries one. -/
theorem terminal_transitions_keep_hostref :
    (∀ (m : DestroyMsg) (t : Nat) (s : SysState) (it : Item),
       getItem s.envs (pkOf m.repo m.pr_number) = some it →
       (∃ it2, getItem (handle_destroy m t s).1.envs (pkOf m.repo m.pr_number) = some it2 ∧
          it2.status = some "destroyed" ∧ it2.ec2_instance_id = it.ec2_instance_id) ∧
       (∀ i, it.ec2_instance_id = some i →
          instance_exists (handle_destroy m t s).1.fleet i = false)) ∧
    (∀ (s : SysState) (pk : String) (env : Item) (t : Nat),
       (∃ it2, getItem (terminate_environment s pk env t).envs pk = some it2 ∧
          it2.status = some "terminated" ∧
          it2.ec2_instance_id = ((getItem s.envs pk).getD {}).ec2_instance_id) ∧
       (∀ i, env.ec2_instance_id = some i →
          instance_exists (terminate_environment s pk env t).fleet i = false)) := by
  constructor
  · intro m t s it hit
    constructor
    · refine ⟨statusPatch "destroyed" t it, ?_, by simp [statusPatch], by simp [statusPatch]⟩
      cases hid : it.ec2_instance_id <;>
        simp [handle_destroy, hit, hid, getItem_updItem_self]
    · intro i hi
      simp [handle_destroy, hit, hi, instance_exists_termInst_self]
  · intro s pk env t
    constructor
    · refine ⟨statusPatch "terminated" t ((getItem s.envs pk).getD {}), ?_,
        by simp [statusPatch], by simp [statusPatch]⟩
      cases h1 : env.ec2_instance_id <;> cases h2 : env.tunnel_id <;>
        simp [terminate_environment, h1, h2, getItem_updItem_self]
    · intro i hi
      cases h2 : env.tunnel_id <;>
        simp [terminate_environment, hi, h2, instance_exists_termInst_self]

/-- C6 amended witness: destroying org/app#42 keeps the stored instance id
i-old on the destroyed record while i-old itself is no longer live. -/
theorem terminal_transitions_keep_hostref_witness :
    (∃ it2, getItem (handle_destroy dmsg0 200 sRun).1.envs (pkOf "org/app" 42) = some it2 ∧
       it2.status = some "destroyed" ∧ it2.ec2_instance_id = some "i-old") ∧
    instance_exists (handle_destroy dmsg0 200 sRun).1.fleet "i-old" = false := by
  have h := terminal_transitions_keep_hostref.1 dmsg0 200 sRun itemRun (by decide)
  obtain ⟨⟨it2, h1, h2, h3⟩, h4⟩ := h
  exact ⟨⟨it2, h1, h2, h3.trans rfl⟩, h4 "i-old" rfl⟩

/-- C3 counterexample: a host that reaches running state and passes status
checks but whose SSM agent never registers exhausts the 120 second agent
wait, yet wait_for_instance returns ok instead of surfacing a hard
failure. -/
theorem wait_for_instance_ok_when_ssm_never_ready :
    wait_for_instance wSsmNever 300 = Except.ok () ∧
    ssmAgentPoll wSsmNever.ssm_agent_ready 0 12 = false := ⟨rfl, rfl⟩

/-- C3 amended: the two EC2-level waits surface hard failures when their
attempt budgets (timeout/5 and timeout/10) are exhausted, and the function
always returns once they pass: the trailing SSM-agent wait is bounded but
on expiry only warns, so the function returns ok whether or not the agent
ever became ready. -/
theorem wait_for_instance_deadline_behavior :
    ∀ (w : DeployWorld) (timeout : Nat),
      (timeout / 5 ≤ w.running_ready_at →
        wait_for_instance w timeout =
          Except.error "Waiter InstanceRunning failed: Max attempts exceeded") ∧
      (w.running_ready_at < timeout / 5 → timeout / 10 ≤ w.status_ok_ready_at →
        wait_for_instance w timeout =
          Except.error "Waiter InstanceStatusOk failed: Max attempts exceeded") ∧
      (w.running_ready_at < timeout / 5 → w.status_ok_ready_at < timeout / 10 →
        wait_for_instance w timeout = Except.ok ()) := by
  intro w timeout
  refine ⟨?_, ?_, ?_⟩
  · intro h
    simp [wait_for_instance, h]
  · intro h1 h2
    simp [wait_for_instance, Nat.not_le.mpr h1, h2]
  · intro h1 h2
    simp [wait_for_instance, Nat.not_le.mpr h1, Nat.not_le.mpr h2]

/-- C3 amended witness: with the default waits succeeding, the wait returns
ok even though the agent never becomes ready; with an exhausted running
waiter it returns the hard WaiterError. -/
theorem wait_for_instance_deadline_behavior_witness :
    wait_for_instance wSsmNever 300 = Except.ok () ∧
    wait_for_instance { wSsmNever with running_ready_at := 999 } 300 =
      Except.error "Waiter InstanceRunning failed: Max attempts exceeded" := by
  constructor
  · exact (wait_for_instance_deadline_behavior wSsmNever 300).2.2 (by decide) (by decide)
  · exact (wait_for_instance_deadline_behavior
      { wSsmNever with running_ready_at := 999 } 300).1 (by decide)

/-- C4: whenever the steps before the launch succeed (secrets, GitHub,
repo config), the deploy fails (the launch call raises TypeError at the
latest) and the failure handling writes status=failed with a non-empty
error_message equal to the raised message, while the builds table is left
untouched, so no BuildAttempt with status success is appended. -/
theorem failed_deploy_writes_failed_record :
    ∀ (m : DeployMsg) (w : DeployWorld) (t : Nat) (s : SysState),
      w.cf_secret_ok = true → w.github_ok = true → w.repo_config_ok = true →
      ∃ e, (handle_deploy m w t s).2 = Except.error e ∧ e ≠ "" ∧
        (∃ it, getItem (handle_deploy m w t s).1.envs (pkOf m.repo m.pr_number) = some it ∧
           it.status = some "failed" ∧ it.error_message = some e) ∧
        (handle_deploy m w t s).1.builds = s.builds := by
  intro m w t s hcf hgh hrc
  have hlc : launch_call_ok = false := rfl
  have hres : handle_deploy m w t s =
      (failWrite (pkOf m.repo m.pr_number) tyErr t
        (teardown_existing (getItem s.envs (pkOf m.repo m.pr_number)) s),
       Except.error tyErr) := by
    simp [handle_deploy, deploy_try, hcf, hgh, hrc, hlc]
  refine ⟨tyErr, by rw [hres], by decide, ?_, ?_⟩
  · refine ⟨{ (getItem (teardown_existing (getItem s.envs (pkOf m.repo m.pr_number)) s).envs
        (pkOf m.repo m.pr_number)).getD {} with
        status := some "failed"
        error_message := some tyErr
        updated_at := some t }, ?_, rfl, rfl⟩
    rw [hres]
    simp [failWrite, getItem_updItem_self]
  · rw [hres]
    simp [failWrite, teardown_existing_builds]

/-- C4 witness: under the all-success world on the clean registry the
deploy fails with the TypeError, the record is failed with that message,
and no build row is appended. -/
theorem failed_deploy_writes_failed_record_witness :
    ∃ e, (handle_deploy msg0 w0 7 s0).2 = Except.error e ∧ e ≠ "" ∧
      (∃ it, getItem (handle_deploy msg0 w0 7 s0).1.envs (pkOf "org/app" 42) = some it ∧
         it.status = some "failed" ∧ it.error_message = some e) ∧
      (handle_deploy msg0 w0 7 s0).1.builds = s0.builds :=
  failed_deploy_writes_failed_record msg0 w0 7 s0 rfl rfl rfl

/-- C10: a deploy failure on a key with no prior record still upserts a
record for that key: the failure-path update_item creates an item holding
exactly status=failed, the error message and updated_at, with no branch,
sha, instance id or created_at attribute. -/
theorem failed_deploy_upserts_minimal_record :
    ∀ (m : DeployMsg) (w : DeployWorld) (t : Nat) (s : SysState),
      getItem s.envs (pkOf m.repo m.pr_number) = none → w.cf_secret_ok = true →
      ∃ e, (handle_deploy m w t s).2 = Except.error e ∧
        getItem (handle_deploy m w t s).1.envs (pkOf m.repo m.pr_number) =
          some { status := some "failed", error_message := some e, updated_at := some t } := by
  intro m w t s hnone hcf
  cases hgh : w.github_ok with
  | false =>
      have hres : handle_deploy m w t s =
          (failWrite (pkOf m.repo m.pr_number) w.github_err t s,
           Except.error w.github_err) := by
        simp [handle_deploy, deploy_try, hcf, hgh]
      refine ⟨w.github_err, by rw [hres], ?_⟩
      rw [hres]
      simp [failWrite, getItem_updItem_self, hnone]
  | true =>
      cases hrc : w.repo_config_ok with
      | false =>
          have hres : handle_deploy m w t s =
              (failWrite (pkOf m.repo m.pr_number) w.repo_config_err t s,
               Except.error w.repo_config_err) := by
            simp [handle_deploy, deploy_try, hcf, hgh, hrc]
          refine ⟨w.repo_config_err, by rw [hres], ?_⟩
          rw [hres]
          simp [failWrite, getItem_updItem_self, hnone]
      | true =>
          have hlc : launch_call_ok = false := rfl
          have hres : handle_deploy m w t s =
              (failWrite (pkOf m.repo m.pr_number) tyErr t
                (teardown_existing (getItem s.envs (pkOf m.repo m.pr_number)) s),
               Except.error tyErr) := by
            simp [handle_deploy, deploy_try, hcf, hgh, hrc, hlc]
          refine ⟨tyErr, by rw [hres], ?_⟩
          rw [hres]
          simp [failWrite, getItem_updItem_self, teardown_existing_envs, hnone]

/-- C10 witness: the concrete clean-registry deploy leaves exactly the
minimal failed record. -/
theorem failed_deploy_upserts_minimal_record_witness :
    ∃ e, (handle_deploy msg0 w0 9 s0).2 = Except.error e ∧
      getItem (handle_deploy msg0 w0 9 s0).1.envs (pkOf "org/app" 42) =
        some { status := some "failed", error_message := some e, updated_at := some 9 } :=
  failed_deploy_upserts_minimal_record msg0 w0 9 s0 rfl rfl

/-- C1: on a clean registry with every collaborator healthy, handle_deploy
does not produce the running record of the specification scenario: the
launch call raises TypeError (launch_instance has no parameter named
instance_profile_arn), so the unit of work fails and the registry records
status=failed with that message, no instance launched, no build row
appended. -/
theorem handle_deploy_clean_registry_all_ok_fails :
    handle_deploy msg0 w0 100 s0 =
      ({ envs := [("org/app#42",
          { status := some "failed", error_message := some tyErr,
            updated_at := some 100 })],
         builds := [], fleet := [], tunnels := [] }, Except.error tyErr) ∧
    launch_call_ok = false := ⟨rfl, rfl⟩

/-- C2: a redeploy over a running environment does terminate the old host
and delete its tunnel before attempting the launch, but the launch call
TypeError means no new host ever comes up: after one and after two
completed deploys for the same key zero hosts are live (not exactly one),
and the surviving record still carries the pre-deploy sha rather than the
latest deploy sha. -/
theorem handle_deploy_redeploy_leaves_no_live_host :
    fleetGet c2_s1.fleet "i-old" =
      some { state := InstState.terminated, repository := some "org/app",
             pr_number := some 42 } ∧
    c2_s1.tunnels = [] ∧
    liveInstances c2_s1.fleet = [] ∧
    (handle_deploy msgB wB 200 c2_s1).2 = Except.error tyErr ∧
    liveInstances c2_s2.fleet = [] ∧
    getItem c2_s2.envs "org/app#42" =
      some { itemRun with
             status := some "failed"
             error_message := some tyErr
             updated_at := some 200 } := by
  refine ⟨by decide, by decide, by decide, rfl, by decide, by decide⟩

/-- C5: on the launch-repaired code path, a deploy in which every
infrastructure step succeeds persists the running record and appends the
success build row, and then a failure of the best-effort PR comment makes
the except block rewrite that record to status=failed and the handler
re-raise, so the notification failure both rolls the recorded outcome back
and makes the unit of work report failure, while the success build row
remains. -/
theorem notify_failure_overwrites_running_record :
    getItem c5_try.1.envs "org/app#42" = some itemC5run ∧
    c5_try.2 = Except.error "GitHub API error while posting PR comment" ∧
    getItem c5_full.1.envs "org/app#42" = some itemC5fail ∧
    c5_full.2 = Except.error "GitHub API error while posting PR comment" ∧
    c5_full.1.builds =
      [{ environment_id := "org/app#42", build_id := "build-abc12345-100",
         sha := "abc12345", status := "success", created_at := 100 }] := by
  refine ⟨by decide, rfl, by decide, rfl, by decide⟩

/-- One terminate step preserves the fleet invariant: each instance is
either untouched or its metadata is the original with state terminated. -/
theorem fleet_mono_step (f0 f : Fleet) (i : String)
    (h : ∀ j, fleetGet f j = fleetGet f0 j ∨
         fleetGet f j = (fleetGet f0 j).map termMeta) :
    ∀ j, fleetGet (termInst f i) j = fleetGet f0 j ∨
         fleetGet (termInst f i) j = (fleetGet f0 j).map termMeta := by
  intro j
  rw [fleetGet_termInst]
  by_cases hj : j = i
  · rw [if_pos hj]
    rcases h j with h1 | h1
    · right
      rw [h1]
    · right
      rw [h1]
      cases hv : fleetGet f0 j <;> simp [hv, termMeta_termMeta]
  · rw [if_neg hj]
    exact h j

/-- One terminated-status write preserves the registry invariant: each key
is either untouched or now holds an item whose status is terminated. -/
theorem reg_term_step (e0 e : Registry) (pk : String) (t : Nat)
    (h : ∀ k, getItem e k = getItem e0 k ∨
         ∃ it, getItem e k = some it ∧ it.status = some "terminated") :
    ∀ k, getItem (updTerm e pk t) k = getItem e0 k ∨
         ∃ it, getItem (updTerm e pk t) k = some it ∧ it.status = some "terminated" := by
  intro k
  by_cases hk : k = pk
  · subst hk
    right
    refine ⟨statusPatch "terminated" t ((getItem e k).getD {}), ?_, ?_⟩
    · rw [updTerm, getItem_updItem_self]
    · simp [statusPatch]
  · rw [updTerm, getItem_updItem_ne _ _ _ _ hk]
    exact h k

/-- The orphaned-instance loop only ever terminates instances. -/
theorem orphanLoop_fleet (oracle : String → Nat → Option Bool) (t : Nat)
    (f0 : Fleet) :
    ∀ (l : Fleet) (f : Fleet) (e : Registry),
      (∀ j, fleetGet f j = fleetGet f0 j ∨
        fleetGet f j = (fleetGet f0 j).map termMeta) →
      ∀ j, fleetGet (orphanLoop oracle t l f e).1 j = fleetGet f0 j ∨
           fleetGet (orphanLoop oracle t l f e).1 j = (fleetGet f0 j).map termMeta := by
  intro l
  induction l with
  | nil => intro f e h j; exact h j
  | cons hd tl ih =>
      intro f e h j
      obtain ⟨iid, meta⟩ := hd
      obtain ⟨mst, mrep, mpr⟩ := meta
      cases mrep with
      | none => exact ih f e h j
      | some repo =>
          cases mpr with
          | none => exact ih f e h j
          | some pr =>
              by_cases hrp : repo = "" ∨ pr = 0
              · rw [show orphanLoop oracle t
                    ((iid, ⟨mst, some repo, some pr⟩) :: tl) f e =
                    orphanLoop oracle t tl f e from by simp [orphanLoop, hrp]]
                exact ih f e h j
              · cases hor : oracle repo pr with
                | none =>
                    rw [show orphanLoop oracle t
                        ((iid, ⟨mst, some repo, some pr⟩) :: tl) f e =
                        orphanLoop oracle t tl f e from by simp [orphanLoop, hrp, hor]]
                    exact ih f e h j
                | some b =>
                    cases b with
                    | true =>
                        rw [show orphanLoop oracle t
                            ((iid, ⟨mst, some repo, some pr⟩) :: tl) f e =
                            orphanLoop oracle t tl f e from by simp [orphanLoop, hrp, hor]]
                        exact ih f e h j
                    | false =>
                        rw [show orphanLoop oracle t
                            ((iid, ⟨mst, some repo, some pr⟩) :: tl) f e =
                            orphanLoop oracle t tl (termInst f iid)
                              (updTerm e (pkOf repo pr) t) from by
                          simp [orphanLoop, hrp, hor]]
                        exact ih (termInst f iid) (updTerm e (pkOf repo pr) t)
                          (fleet_mono_step f0 f iid h) j

/-- The orphaned-instance loop writes no registry status other than
terminated. -/
theorem orphanLoop_reg (oracle : String → Nat → Option Bool) (t : Nat)
    (e0 : Registry) :
    ∀ (l : Fleet) (f : Fleet) (e : Registry),
      (∀ k, getItem e k = getItem e0 k ∨
        ∃ it, getItem e k = some it ∧ it.status = some "terminated") →
      ∀ k, getItem (orphanLoop oracle t l f e).2 k = getItem e0 k ∨
           ∃ it, getItem (orphanLoop oracle t l f e).2 k = some it ∧
             it.status = some "terminated" := by
  intro l
  induction l with
  | nil => intro f e h k; exact h k
  | cons hd tl ih =>
      intro f e h k
      obtain ⟨iid, meta⟩ := hd
      obtain ⟨mst, mrep, mpr⟩ := meta
      cases mrep with
      | none => exact ih f e h k
      | some repo =>
          cases mpr with
          | none => exact ih f e h k
          | some pr =>
              by_cases hrp : repo = "" ∨ pr = 0
              · rw [show orphanLoop oracle t
                    ((iid, ⟨mst, some repo, some pr⟩) :: tl) f e =
                    orphanLoop oracle t tl f e from by simp [orphanLoop, hrp]]
                exact ih f e h k
              · cases hor : oracle repo pr with
                | none =>
                    rw [show orphanLoop oracle t
                        ((iid, ⟨mst, some repo, some pr⟩) :: tl) f e =
                        orphanLoop oracle t tl f e from by simp [orphanLoop, hrp, hor]]
                    exact ih f e h k
                | some b =>
                    cases b with
                    | true =>
                        rw [show orphanLoop oracle t
                            ((iid, ⟨mst, some repo, some pr⟩) :: tl) f e =
                            orphanLoop oracle t tl f e from by simp [orphanLoop, hrp, hor]]
                        exact ih f e h k
                    | false =>
                        rw [show orphanLoop oracle t
                            ((iid, ⟨mst, some repo, some pr⟩) :: tl) f e =
                            orphanLoop oracle t tl (termInst f iid)
                              (updTerm e (pkOf repo pr) t) from by
                          simp [orphanLoop, hrp, hor]]
                        exact ih (termInst f iid) (updTerm e (pkOf repo pr) t)
                          (reg_term_step e0 e (pkOf repo pr) t h) k

/-- The stale-record loop writes no registry status other than
terminated. -/
theorem staleLoop_reg (fleet : Fleet) (t : Nat) (e0 : Registry) :
    ∀ (l : Registry) (e : Registry),
      (∀ k, getItem e k = getItem e0 k ∨
        ∃ it, getItem e k = some it ∧ it.status = some "terminated") →
      ∀ k, getItem (staleLoop fleet t l e) k = getItem e0 k ∨
           ∃ it, getItem (staleLoop fleet t l e) k = some it ∧
             it.status = some "terminated" := by
  intro l
  induction l with
  | nil => intro e h k; exact h k
  | cons hd tl ih =>
      intro e h k
      obtain ⟨pk0, it0⟩ := hd
      cases hid : it0.ec2_instance_id with
      | none =>
          rw [show staleLoop fleet t ((pk0, it0) :: tl) e = staleLoop fleet t tl e
            from by simp [staleLoop, hid]]
          exact ih e h k
      | some iid =>
          cases hex : instance_exists fleet iid with
          | true =>
              rw [show staleLoop fleet t ((pk0, it0) :: tl) e = staleLoop fleet t tl e
                from by simp [staleLoop, hid, hex]]
              exact ih e h k
          | false =>
              rw [show staleLoop fleet t ((pk0, it0) :: tl) e =
                  staleLoop fleet t tl (updTerm e pk0 t) from by
                simp [staleLoop, hid, hex]]
              exact ih (updTerm e pk0 t) (reg_term_step e0 e pk0 t h) k

/-- Once a key holds a terminated item, the stale-record loop keeps it
terminated. -/
theorem staleLoop_keeps_terminated (fleet : Fleet) (t : Nat) :
    ∀ (l : Registry) (e : Registry) (pk : String),
      (∃ it, getItem e pk = some it ∧ it.status = some "terminated") →
      ∃ it, getItem (staleLoop fleet t l e) pk = some it ∧
        it.status = some "terminated" := by
  intro l
  induction l with
  | nil => intro e pk h; exact h
  | cons hd tl ih =>
      intro e pk h
      obtain ⟨pk0, it0⟩ := hd
      cases hid : it0.ec2_instance_id with
      | none =>
          rw [show staleLoop fleet t ((pk0, it0) :: tl) e = staleLoop fleet t tl e
            from by simp [staleLoop, hid]]
          exact ih e pk h
      | some iid =>
          cases hex : instance_exists fleet iid with
          | true =>
              rw [show staleLoop fleet t ((pk0, it0) :: tl) e = staleLoop fleet t tl e
                from by simp [staleLoop, hid, hex]]
              exact ih e pk h
          | false =>
              rw [show staleLoop fleet t ((pk0, it0) :: tl) e =
                  staleLoop fleet t tl (updTerm e pk0 t) from by
                simp [staleLoop, hid, hex]]
              apply ih
              by_cases hk : pk = pk0
              · subst hk
                refine ⟨statusPatch "terminated" t ((getItem e pk).getD {}), ?_, ?_⟩
                · rw [updTerm, getItem_updItem_self]
                · simp [statusPatch]
              · rw [updTerm, getItem_updItem_ne _ _ _ _ hk]
                exact h

/-- Every stale entry of the processed list ends with a terminated
status. -/
theorem staleLoop_fixes (fleet : Fleet) (t : Nat) :
    ∀ (l : Registry) (e : Registry) (pk : String) (it : Item) (iid : String),
      (pk, it) ∈ l → it.ec2_instance_id = some iid →
      instance_exists fleet iid = false →
      ∃ it2, getItem (staleLoop fleet t l e) pk = some it2 ∧
        it2.status = some "terminated" := by
  intro l
  induction l with
  | nil => intro e pk it iid hm; exact absurd hm (List.not_mem_nil _)
  | cons hd tl ih =>
      intro e pk it iid hm hid hex
      obtain ⟨pk0, it0⟩ := hd
      rcases List.mem_cons.mp hm with heq | hmem
      · obtain ⟨h1, h2⟩ := Prod.mk.injEq pk it pk0 it0 ▸ heq
        subst h1
        subst h2
        rw [show staleLoop fleet t ((pk, it) :: tl) e =
            staleLoop fleet t tl (updTerm e pk t) from by simp [staleLoop, hid, hex]]
        apply staleLoop_keeps_terminated
        refine ⟨statusPatch "terminated" t ((getItem e pk).getD {}), ?_, ?_⟩
        · rw [updTerm, getItem_updItem_self]
        · simp [statusPatch]
      · cases hid0 : it0.ec2_instance_id with
        | none =>
            rw [show staleLoop fleet t ((pk0, it0) :: tl) e = staleLoop fleet t tl e
              from by simp [staleLoop, hid0]]
            exact ih e pk it iid hmem hid hex
        | some iid0 =>
            cases hex0 : instance_exists fleet iid0 with
            | true =>
                rw [show staleLoop fleet t ((pk0, it0) :: tl) e = staleLoop fleet t tl e
                  from by simp [staleLoop, hid0, hex0]]
                exact ih e pk it iid hmem hid hex
            | false =>
                rw [show staleLoop fleet t ((pk0, it0) :: tl) e =
                    staleLoop fleet t tl (updTerm e pk0 t) from by
                  simp [staleLoop, hid0, hex0]]
                exact ih (updTerm e pk0 t) pk it iid hmem hid hex

/-- C9: a reconciler pass never creates resources and never moves anything
toward running: every instance is either untouched or terminated in place
(so no instance appears and none changes to any state but terminated), and
every registry key is either untouched or holds status=terminated
afterward.  The fleet returned by reconcile is exactly the orphan-pass
fleet: the stale-record pass performs registry writes alone, and it forces
every running record whose instance no longer exists to
status=terminated. -/
theorem reconcile_only_moves_to_terminated :
    (∀ (envs : Registry) (fleet : Fleet) (oracle : String → Nat → Option Bool)
       (t : Nat) (i : String),
       fleetGet (reconcile envs fleet oracle t).1 i = fleetGet fleet i ∨
       fleetGet (reconcile envs fleet oracle t).1 i =
         (fleetGet fleet i).map termMeta) ∧
    (∀ (envs : Registry) (fleet : Fleet) (oracle : String → Nat → Option Bool)
       (t : Nat) (k : String),
       getItem (reconcile envs fleet oracle t).2 k = getItem envs k ∨
       ∃ it, getItem (reconcile envs fleet oracle t).2 k = some it ∧
         it.status = some "terminated") ∧
    (∀ (envs : Registry) (fleet : Fleet) (oracle : String → Nat → Option Bool)
       (t : Nat),
       (reconcile envs fleet oracle t).1 = (orphanPass envs fleet oracle t).1) ∧
    (∀ (envs : Registry) (fleet : Fleet) (t : Nat) (pk : String) (it : Item)
       (iid : String),
       (pk, it) ∈ envs → it.status = some "running" →
       it.ec2_instance_id = some iid → instance_exists fleet iid = false →
       ∃ it2, getItem (stalePass envs fleet t) pk = some it2 ∧
         it2.status = some "terminated") := by
  refine ⟨?_, ?_, ?_, ?_⟩
  · intro envs fleet oracle t i
    exact orphanLoop_fleet oracle t fleet (ephemeral_instances fleet) fleet envs
      (fun j => Or.inl rfl) i
  · intro envs fleet oracle t k
    have h1 := orphanLoop_reg oracle t envs (ephemeral_instances fleet) fleet envs
      (fun k2 => Or.inl rfl)
    exact staleLoop_reg (orphanPass envs fleet oracle t).1 t envs
      (queryByStatus (orphanPass envs fleet oracle t).2 "running")
      (orphanPass envs fleet oracle t).2 h1 k
  · intro envs fleet oracle t
    rfl
  · intro envs fleet t pk it iid hm hst hid hex
    refine staleLoop_fixes fleet t (queryByStatus envs "running") envs pk it iid
      ?_ hid hex
    simp [queryByStatus, List.mem_filter, hm, hst]

/-- C9 witness: a registry with one running record whose instance is gone
is fixed to terminated by the stale pass over an empty fleet. -/
theorem reconcile_only_moves_to_terminated_witness :
    ∃ it2, getItem (stalePass reg9 [] 5) (pkOf "org/app" 7) = some it2 ∧
      it2.status = some "terminated" :=
  reconcile_only_moves_to_terminated.2.2.2 reg9 [] 5 (pkOf "org/app" 7)
    { status := some "running", ec2_instance_id := some "i-gone" } "i-gone"
    (by decide) rfl rfl rfl
